import Mathlib

/-!
Shallow embedding of the fake-star detector (src/final.py and
src/interval_clustering.py).

The scoring pipeline of `analyze_repository` (final.py) is embedded as pure
functions over exact rationals.  Python float arithmetic on the small
rate/percentage values is modelled by exact arithmetic over `ℚ`; the scipy
calls (`linkage`/`fcluster`) are external library code, so the cluster-label
assignment they return is treated as an abstract input (a list of labels in
the range `1..K`, which is `fcluster`'s documented contract for the
`maxclust` criterion), and everything the repository itself computes from
that assignment is embedded faithfully.
-/

namespace FakeStar

/-- Summary statistics of one cluster as stored in `cluster_info` in
final.py (lines 506-515): member count, mean, standard deviation and
percentage of all intervals.  The numeric fields are the values the
pipeline computed; the scorer only compares them against thresholds. -/
structure ClusterStats where
  count : ℕ
  mean : ℚ
  std : ℚ
  percentage : ℚ
deriving DecidableEq

/-- final.py line 427: `issue_rate = total_issues / stars * 100 if stars > 0 else 0`. -/
def issueRate (totalIssues stars : ℕ) : ℚ :=
  if 0 < stars then (totalIssues : ℚ) / stars * 100 else 0

/-- final.py line 428: `pr_rate = total_prs / stars * 100 if stars > 0 else 0`. -/
def prRate (totalPRs stars : ℕ) : ℚ :=
  if 0 < stars then (totalPRs : ℚ) / stars * 100 else 0

/-- final.py line 429: `fork_rate = forks / stars * 100 if stars > 0 else 0`. -/
def forkRate (forks stars : ℕ) : ℚ :=
  if 0 < stars then (forks : ℚ) / stars * 100 else 0

/-- final.py lines 437-443: issue-rate signal, 30 points if the rate is
below 1% and stars exceed 100, else 15 points if below 2% and stars exceed
100, else 0. -/
def evidence1Score (totalIssues stars : ℕ) : ℕ :=
  if issueRate totalIssues stars < 1 ∧ 100 < stars then 30
  else if issueRate totalIssues stars < 2 ∧ 100 < stars then 15
  else 0

/-- final.py lines 445-451: PR-rate signal, 20 / 10 / 0 points. -/
def evidence2Score (totalPRs stars : ℕ) : ℕ :=
  if prRate totalPRs stars < 1 ∧ 100 < stars then 20
  else if prRate totalPRs stars < 2 ∧ 100 < stars then 10
  else 0

/-- final.py lines 453-456: fork-rate signal, 25 points when the rate is
below 8% and stars exceed 100. -/
def evidence3Score (forks stars : ℕ) : ℕ :=
  if forkRate forks stars < 8 ∧ 100 < stars then 25 else 0

/-- final.py lines 465-466: a commit counts as a bot commit when the string
"Update TIME.md" occurs in its message. -/
def isBotCommit (msg : String) : Bool :=
  decide (("Update TIME.md".toList) <:+: msg.toList)

/-- final.py lines 465-466: number of sampled commits matching the bot
pattern. -/
def botCommitCount (commits : List String) : ℕ :=
  (commits.filter isBotCommit).length

/-- final.py line 467: `bot_ratio = bot_commits / len(commits) * 100 if commits else 0`. -/
def botPercent (commits : List String) : ℚ :=
  if commits = [] then 0
  else (botCommitCount commits : ℚ) / commits.length * 100

/-- final.py lines 472-478: bot-commit signal, 30 points when the bot share
exceeds 80% over more than 50 sampled commits, else 15 points when it
exceeds 50%. -/
def evidence4Score (commits : List String) : ℕ :=
  if 80 < botPercent commits ∧ 50 < commits.length then 30
  else if 50 < botPercent commits then 15
  else 0

/-- final.py lines 523-528: time-clustering signal computed from the main
cluster, 50 points when its std is below 5 minutes and it has at least 10
members, else 25 points when its std is below 10 minutes and its share of
all intervals exceeds 30%. -/
def timeClusterScore (main : ClusterStats) : ℕ :=
  if main.std < 5 ∧ 10 ≤ main.count then 50
  else if main.std < 10 ∧ 30 < main.percentage then 25
  else 0

/-- final.py lines 488-530: the clustering branch only runs when at least 20
stargazer timestamps were obtained; otherwise `evidence_5_score` keeps its
initial value 0 ("Insufficient data"). -/
def evidence5Score (numStargazers : ℕ) (main : ClusterStats) : ℕ :=
  if 20 ≤ numStargazers then timeClusterScore main else 0

/-- final.py line 540: repositories of the owner with more than 50 stars.
A repository is modelled by its `created_at` string and its star count. -/
def highStarRepos (repos : List (String × ℕ)) : List (String × ℕ) :=
  repos.filter (fun r => decide (50 < r.2))

/-- final.py lines 541-545: creation dates (the first 10 characters of
`created_at`) of the owner's high-star repositories, with multiplicity. -/
def creationDates (repos : List (String × ℕ)) : List String :=
  (highStarRepos repos).map (fun r => r.1.take 10)

/-- final.py lines 547 and 552: whether some creation date is shared by at
least `k` high-star repositories. -/
def hasBulkDate (repos : List (String × ℕ)) (k : ℕ) : Bool :=
  (creationDates repos).any (fun d => decide (k ≤ (creationDates repos).count d))

/-- final.py lines 549-556: bulk-creation signal, 25 points when some date
has at least 3 high-star repositories, 10 points when some date has at
least 2, else 0. -/
def evidence6Score (repos : List (String × ℕ)) : ℕ :=
  if hasBulkDate repos 2 then
    if hasBulkDate repos 3 then 25 else 10
  else 0

/-- Inputs of one `analyze_repository` run, as consumed by the scoring
rubric: repository counters, the sampled commit messages, the number of
stargazer timestamps obtained, the main-cluster statistics produced by the
clustering step, and the owner's repository list. -/
structure AnalysisInput where
  stars : ℕ
  forks : ℕ
  totalIssues : ℕ
  totalPRs : ℕ
  commits : List String
  numStargazers : ℕ
  mainCluster : ClusterStats
  repos : List (String × ℕ)

/-- final.py lines 559-560: the total suspicion score is the sum of the six
evidence scores. -/
def totalScore (a : AnalysisInput) : ℕ :=
  evidence1Score a.totalIssues a.stars + evidence2Score a.totalPRs a.stars +
    evidence3Score a.forks a.stars + evidence4Score a.commits +
    evidence5Score a.numStargazers a.mainCluster + evidence6Score a.repos

/-- final.py line 583: the declared maximum score written to the report. -/
def maxScore : ℕ := 180

/-- final.py line 126: per-signal maximum scores displayed in the
visualization (issue rate, PR rate, fork rate, bot commits, time
clustering, bulk creation). -/
def declaredMaxScores : List ℕ := [30, 20, 25, 30, 50, 25]

/-- final.py lines 564-566: status label stored in the JSON report,
selected by the breakpoints 80 and 40 on the total score. -/
def reportStatus (total : ℕ) : String :=
  if 80 ≤ total then "🔴 HIGH SUSPICION"
  else if 40 ≤ total then "🟡 MEDIUM SUSPICION"
  else "🟢 LOW SUSPICION"

/-- final.py lines 195-206 (`generate_verdict`): verdict level written to
the markdown document, selected by the breakpoints 100, 60 and 30 on the
total score. -/
def verdictLevel (total : ℕ) : String :=
  if 100 ≤ total then "🔴 CONFIRMED MANIPULATION"
  else if 60 ≤ total then "🔴 HIGH SUSPICION"
  else if 30 ≤ total then "🟡 MEDIUM SUSPICION"
  else "🟢 LOW SUSPICION"

/-- final.py line 503 and interval_clustering.py line 43:
`max_clusters = min(8, len(intervals) // 10)`. -/
def maxClusters (numIntervals : ℕ) : ℕ :=
  min 8 (numIntervals / 10)

/-- final.py lines 506-511 and interval_clustering.py lines 47-52: the
member count of cluster `cid` is the number of interval indices whose
`fcluster` label equals `cid`. -/
def clusterCount (labels : List ℕ) (cid : ℕ) : ℕ :=
  labels.count cid

/-- interval_clustering.py lines 129-136: regularity component of the
automation score, 40 points when the main cluster's std is below 5 and it
has at least 5 members, else 20 points when its std is below 10 (no share
condition). -/
def regularityScoreIC (main : ClusterStats) : ℕ :=
  if main.std < 5 ∧ 5 ≤ main.count then 40
  else if main.std < 10 then 20
  else 0

/-- interval_clustering.py line 109: number of timestamps whose
minute-of-hour lies in the top-of-hour window `0 <= m <= 5`. -/
def topOfHourCount (minutes : List ℕ) : ℕ :=
  (minutes.filter (fun m => decide (0 ≤ m ∧ m ≤ 5))).length

/-- interval_clustering.py line 110: number of timestamps whose
minute-of-hour lies in the near-half-hour window `25 <= m <= 35`. -/
def halfHourCount (minutes : List ℕ) : ℕ :=
  (minutes.filter (fun m => decide (25 ≤ m ∧ m ≤ 35))).length

/-- interval_clustering.py lines 139-141: the boundary-concentration signal
adds 30 points exactly when the top-of-hour count divided by the number of
timestamps exceeds 0.2; the half-hour count is printed but never scored. -/
def boundaryScore (minutes : List ℕ) : ℕ :=
  if (topOfHourCount minutes : ℚ) / (minutes.length : ℚ) > 1/5 then 30 else 0

/-- interval_clustering.py line 82 context: mean of a list of interval
values (numpy mean; `[]` is modelled as mean 0, Lean's `x / 0 = 0`
convention standing in for numpy's nan). -/
def listMean (xs : List ℚ) : ℚ :=
  xs.sum / (xs.length : ℚ)

/-- Population variance (numpy `std` squared: divide by `n`, not `n - 1`). -/
def popVariance (xs : List ℚ) : ℚ :=
  ((xs.map (fun x => (x - listMean xs) ^ 2)).sum) / (xs.length : ℚ)

/-- interval_clustering.py lines 82-83: a value is flagged as an outlier
when its absolute z-score `|x - mean| / std` exceeds 2.  Squaring both
sides of that comparison gives the equivalent exact-rational test
`(x - mean)^2 > 4 * variance` (for `std > 0`); when the variance is 0,
scipy's `zscore` produces nan z-scores and `nan > 2` is false, so no value
is flagged — modelled by the explicit `popVariance xs ≠ 0` guard. -/
def isOutlierValue (xs : List ℚ) (x : ℚ) : Bool :=
  decide (popVariance xs ≠ 0 ∧ 4 * popVariance xs < (x - listMean xs) ^ 2)

/-- interval_clustering.py line 83: indices of the flagged intervals
(`np.where(z_scores > 2)[0]`). -/
def outlierIndices (xs : List ℚ) : List ℕ :=
  (List.range xs.length).filter (fun i => isOutlierValue xs (xs.getD i 0))

/-- Population standard deviation, the quantity numpy's `std` actually
returns; used only to state specifications. -/
noncomputable def popStd (xs : List ℚ) : ℝ :=
  Real.sqrt ((popVariance xs : ℚ) : ℝ)

/-- Concrete analysis input with 50 stars and a commit sample consisting
entirely of bot commits. -/
def lowStarInput : AnalysisInput where
  stars := 50
  forks := 0
  totalIssues := 0
  totalPRs := 0
  commits := List.replicate 10 "Update TIME.md"
  numStargazers := 0
  mainCluster := ⟨0, 0, 0, 0⟩
  repos := []

/-- Concrete analysis input with only 5 stargazer timestamps (the spec's
scenario D): the rate signals fire but clustering has insufficient data. -/
def scenarioD : AnalysisInput where
  stars := 500
  forks := 10
  totalIssues := 2
  totalPRs := 2
  commits := []
  numStargazers := 5
  mainCluster := ⟨0, 0, 0, 0⟩
  repos := []

/-! ## Helper lemmas -/

theorem evidence1Score_le (totalIssues stars : ℕ) :
    evidence1Score totalIssues stars ≤ 30 := by
  unfold evidence1Score
  split
  · omega
  · split <;> omega

theorem evidence2Score_le (totalPRs stars : ℕ) :
    evidence2Score totalPRs stars ≤ 20 := by
  unfold evidence2Score
  split
  · omega
  · split <;> omega

theorem evidence3Score_le (forks stars : ℕ) :
    evidence3Score forks stars ≤ 25 := by
  unfold evidence3Score
  split <;> omega

theorem evidence4Score_le (commits : List String) :
    evidence4Score commits ≤ 30 := by
  unfold evidence4Score
  split
  · omega
  · split <;> omega

theorem timeClusterScore_le (main : ClusterStats) :
    timeClusterScore main ≤ 50 := by
  unfold timeClusterScore
  split
  · omega
  · split <;> omega

theorem evidence5Score_le (numStargazers : ℕ) (main : ClusterStats) :
    evidence5Score numStargazers main ≤ 50 := by
  unfold evidence5Score
  split
  · exact timeClusterScore_le main
  · omega

theorem evidence6Score_le (repos : List (String × ℕ)) :
    evidence6Score repos ≤ 25 := by
  unfold evidence6Score
  split
  · split <;> omega
  · omega

theorem sum_count_eq_length (K : ℕ) (labels : List ℕ)
    (h : ∀ l ∈ labels, l ∈ Finset.Icc 1 K) :
    (∑ cid in Finset.Icc 1 K, clusterCount labels cid) = labels.length := by
  induction labels with
  | nil => simp [clusterCount]
  | cons a t ih =>
    have ha : a ∈ Finset.Icc 1 K := h a (List.mem_cons_self a t)
    have ht := ih fun l hl => h l (List.mem_cons_of_mem a hl)
    unfold clusterCount at *
    simp only [List.count_cons, beq_iff_eq]
    rw [Finset.sum_add_distrib, ht]
    simp [Finset.sum_ite_eq' (Finset.Icc 1 K) a, ha]

theorem popVariance_nonneg (xs : List ℚ) : 0 ≤ popVariance xs := by
  unfold popVariance
  apply div_nonneg
  · apply List.sum_nonneg
    intro x hx
    obtain ⟨y, _, rfl⟩ := List.mem_map.mp hx
    positivity
  · exact Nat.cast_nonneg _

theorem listMean_replicate (n : ℕ) (c : ℚ) (hn : n ≠ 0) :
    listMean (List.replicate n c) = c := by
  unfold listMean
  rw [List.sum_replicate, List.length_replicate, nsmul_eq_mul, mul_comm,
    mul_div_assoc, div_self (by exact_mod_cast hn), mul_one]

theorem popVariance_replicate (n : ℕ) (c : ℚ) :
    popVariance (List.replicate n c) = 0 := by
  rcases Nat.eq_zero_or_pos n with h | h
  · subst h
    simp [popVariance, listMean]
  · unfold popVariance
    rw [listMean_replicate n c (by omega), List.map_replicate]
    simp

theorem outlierIndices_replicate (n : ℕ) (c : ℚ) :
    outlierIndices (List.replicate n c) = [] := by
  unfold outlierIndices
  apply List.filter_eq_nil_iff.mpr
  intro i _
  simp [isOutlierValue, popVariance_replicate]

theorem mem_outlierIndices (xs : List ℚ) (i : ℕ) :
    i ∈ outlierIndices xs ↔
      i < xs.length ∧ popVariance xs ≠ 0 ∧
        4 * popVariance xs < (xs.getD i 0 - listMean xs) ^ 2 := by
  unfold outlierIndices isOutlierValue
  simp [List.mem_filter, List.mem_range]

theorem zscore_iff (v a : ℚ) (hv0 : 0 ≤ v) (hv : v ≠ 0) :
    4 * v < a ^ 2 ↔ 2 < |(a : ℝ)| / Real.sqrt ((v : ℚ) : ℝ) := by
  have hvR : (0 : ℝ) < (v : ℝ) := by exact_mod_cast lt_of_le_of_ne hv0 (Ne.symm hv)
  have h1 : Real.sqrt ((a : ℝ) ^ 2 / (v : ℝ)) = |(a : ℝ)| / Real.sqrt ((v : ℚ) : ℝ) := by
    rw [Real.sqrt_div (sq_nonneg _), Real.sqrt_sq_eq_abs]
  rw [← h1, Real.lt_sqrt (by norm_num), lt_div_iff₀ hvR,
    show ((2 : ℝ) ^ 2) = 4 from by norm_num]
  constructor
  · intro h
    have h' : ((4 * v : ℚ) : ℝ) < ((a ^ 2 : ℚ) : ℝ) := by exact_mod_cast h
    push_cast at h'
    linarith
  · intro h
    have h' : ((4 * v : ℚ) : ℝ) < ((a ^ 2 : ℚ) : ℝ) := by push_cast; linarith
    exact_mod_cast h'

/-! ## Claim theorems -/

/-- C1: for every interval series, the clusters produced from the label
assignment partition it exactly: every interval index is assigned to
exactly one cluster id in `1..K`, and the per-cluster counts sum to the
total number of intervals. -/
theorem clusters_partition_intervals (labels : List ℕ) (K : ℕ)
    (hmem : ∀ l ∈ labels, l ∈ Finset.Icc 1 K) :
    (∑ cid in Finset.Icc 1 K, clusterCount labels cid) = labels.length ∧
    ∀ i : Fin labels.length, ∃! cid, cid ∈ Finset.Icc 1 K ∧ labels.get i = cid := by
  refine ⟨sum_count_eq_length K labels hmem, fun i => ?_⟩
  refine ⟨labels.get i, ⟨hmem _ (labels.get_mem i.1 i.2), rfl⟩, ?_⟩
  rintro cid ⟨-, hcid⟩
  exact hcid.symm

/-- Witness for C1 at the concrete label assignment `[1, 2, 1, 2, 2]` with
`K = 2`: the two cluster counts sum to 5. -/
theorem clusters_partition_intervals_witness :
    (∑ cid in Finset.Icc 1 2, clusterCount [1, 2, 1, 2, 2] cid) = 5 :=
  (clusters_partition_intervals [1, 2, 1, 2, 2] 2 (by decide)).1

/-- C2: the total suspicion score is the sum of the six evidence scores,
each evidence score is at most its declared maximum (30, 20, 25, 30, 50,
25 — the `max_scores` of the visualization), and the total never exceeds
the declared maximum score 180, which is the sum of the per-signal
maxima. -/
theorem total_score_is_bounded_sum (a : AnalysisInput) :
    totalScore a =
      evidence1Score a.totalIssues a.stars + evidence2Score a.totalPRs a.stars +
        evidence3Score a.forks a.stars + evidence4Score a.commits +
        evidence5Score a.numStargazers a.mainCluster + evidence6Score a.repos ∧
    evidence1Score a.totalIssues a.stars ≤ 30 ∧
    evidence2Score a.totalPRs a.stars ≤ 20 ∧
    evidence3Score a.forks a.stars ≤ 25 ∧
    evidence4Score a.commits ≤ 30 ∧
    evidence5Score a.numStargazers a.mainCluster ≤ 50 ∧
    evidence6Score a.repos ≤ 25 ∧
    declaredMaxScores.sum = maxScore ∧
    totalScore a ≤ maxScore := by
  have h1 := evidence1Score_le a.totalIssues a.stars
  have h2 := evidence2Score_le a.totalPRs a.stars
  have h3 := evidence3Score_le a.forks a.stars
  have h4 := evidence4Score_le a.commits
  have h5 := evidence5Score_le a.numStargazers a.mainCluster
  have h6 := evidence6Score_le a.repos
  refine ⟨rfl, h1, h2, h3, h4, h5, h6, by decide, ?_⟩
  unfold totalScore maxScore
  omega

/-- C3 counterexample: an input with 50 stars (≤ 100) whose commit sample
is 100% bot commits still receives 15 points from the bot-commit signal,
so not all six signals require more than 100 stars. -/
theorem low_star_nonzero_signal_cex :
    lowStarInput.stars ≤ 100 ∧ evidence4Score lowStarInput.commits = 15 := by
  constructor
  · decide
  · have hbot : isBotCommit "Update TIME.md" = true := by decide
    have hcount : botCommitCount lowStarInput.commits = 10 := by
      unfold botCommitCount lowStarInput
      simp [List.filter_replicate, hbot]
    have hpct : botPercent lowStarInput.commits = 100 := by
      unfold botPercent
      rw [if_neg (by decide), hcount]
      norm_num [lowStarInput]
    unfold evidence4Score
    rw [hpct]
    norm_num [lowStarInput]

/-- C3 amended: only the issue-rate, PR-rate and fork-rate signals are
conditioned on the repository having more than 100 stars; with stars ≤ 100
those three scores are 0 (the bot-commit, time-clustering and
bulk-creation signals carry no star-count condition). -/
theorem rate_signals_zero_for_low_stars (a : AnalysisInput) (h : a.stars ≤ 100) :
    evidence1Score a.totalIssues a.stars = 0 ∧
    evidence2Score a.totalPRs a.stars = 0 ∧
    evidence3Score a.forks a.stars = 0 := by
  have h100 : ¬(100 < a.stars) := by omega
  simp [evidence1Score, evidence2Score, evidence3Score, h100]

/-- Witness for C3's amended theorem at the 50-star concrete input. -/
theorem rate_signals_zero_for_low_stars_witness :
    evidence1Score lowStarInput.totalIssues lowStarInput.stars = 0 ∧
    evidence2Score lowStarInput.totalPRs lowStarInput.stars = 0 ∧
    evidence3Score lowStarInput.forks lowStarInput.stars = 0 :=
  rate_signals_zero_for_low_stars lowStarInput (by decide)

/-- C4: with fewer than 20 stargazer timestamps the clustering step
contributes 0 ("insufficient data") instead of failing, and the total
score is the sum of just the five other evidence scores, which are
computed unchanged. -/
theorem insufficient_data_degrades_gracefully (a : AnalysisInput)
    (h : a.numStargazers < 20) :
    evidence5Score a.numStargazers a.mainCluster = 0 ∧
    totalScore a =
      evidence1Score a.totalIssues a.stars + evidence2Score a.totalPRs a.stars +
        evidence3Score a.forks a.stars + evidence4Score a.commits +
        evidence6Score a.repos := by
  have h5 : evidence5Score a.numStargazers a.mainCluster = 0 := by
    unfold evidence5Score
    rw [if_neg (by omega)]
  refine ⟨h5, ?_⟩
  unfold totalScore
  rw [h5]
  ring

/-- Witness for C4 at scenario D (5 timestamps): clustering contributes 0
and the total is the sum of the other five scores. -/
theorem insufficient_data_degrades_gracefully_witness :
    evidence5Score scenarioD.numStargazers scenarioD.mainCluster = 0 ∧
    totalScore scenarioD =
      evidence1Score scenarioD.totalIssues scenarioD.stars +
        evidence2Score scenarioD.totalPRs scenarioD.stars +
        evidence3Score scenarioD.forks scenarioD.stars +
        evidence4Score scenarioD.commits + evidence6Score scenarioD.repos :=
  insufficient_data_degrades_gracefully scenarioD (by decide)

/-- C5 counterexample: in interval_clustering.py a main cluster with std 7,
3 members and a 10% share is awarded the 20-point medium-regularity band
even though its share does not exceed 30%. -/
theorem medium_band_without_share_cex :
    regularityScoreIC ⟨3, 60, 7, 10⟩ = 20 ∧
    ¬(30 < (ClusterStats.mk 3 60 7 10).percentage) := by
  constructor
  · decide
  · decide

/-- C5 amended: the 25-point medium band of final.py fires exactly when
the main cluster's std is below 10, its share exceeds 30% and the 50-point
band (std < 5 and count ≥ 10) did not fire; the 20-point medium band of
interval_clustering.py fires exactly when the std is below 10 and the
40-point band (std < 5 and count ≥ 5) did not fire, with no share
condition. -/
theorem medium_regularity_band_characterization (c : ClusterStats) :
    (timeClusterScore c = 25 ↔
      c.std < 10 ∧ 30 < c.percentage ∧ ¬(c.std < 5 ∧ 10 ≤ c.count)) ∧
    (regularityScoreIC c = 20 ↔
      c.std < 10 ∧ ¬(c.std < 5 ∧ 5 ≤ c.count)) := by
  constructor
  · by_cases h1 : c.std < 5 ∧ 10 ≤ c.count
    · simp [timeClusterScore, h1]
    · by_cases h2 : c.std < 10 ∧ 30 < c.percentage
      · obtain ⟨h2a, h2b⟩ := h2
        simp [timeClusterScore, h1, h2a, h2b]
      · rw [Classical.not_and_iff_or_not_not] at h2
        rcases h2 with h2 | h2 <;> simp [timeClusterScore, h1, h2]
  · by_cases h1 : c.std < 5 ∧ 5 ≤ c.count
    · simp [regularityScoreIC, h1]
    · by_cases h2 : c.std < 10 <;> simp [regularityScoreIC, h1, h2]

/-- C6 counterexample: five timestamps all at minute 30 put 100% of the
sample in the near-half-hour window [25, 35], yet the boundary signal
awards 0 points, because the code scores the top-of-hour window [0, 5]
instead. -/
theorem boundary_signal_half_hour_cex :
    boundaryScore [30, 30, 30, 30, 30] = 0 ∧
    (1 / 5 : ℚ) <
      (halfHourCount [30, 30, 30, 30, 30] : ℚ) /
        (([30, 30, 30, 30, 30] : List ℕ).length : ℚ) := by
  constructor
  · have h : topOfHourCount [30, 30, 30, 30, 30] = 0 := rfl
    unfold boundaryScore
    rw [h]
    norm_num
  · norm_num [halfHourCount]

/-- C6 amended: the boundary-concentration signal awards its 30 points
exactly when the share of timestamps whose minute-of-hour lies in the
top-of-hour window [0, 5] exceeds 20%; the near-half-hour count over
[25, 35] is computed and displayed but never influences the score (the
score depends only on the top-of-hour count and the sample size). -/
theorem boundary_signal_top_of_hour (minutes : List ℕ) :
    (boundaryScore minutes = 30 ↔
      (1 / 5 : ℚ) < (topOfHourCount minutes : ℚ) / (minutes.length : ℚ)) ∧
    ∀ minutes' : List ℕ,
      topOfHourCount minutes = topOfHourCount minutes' →
      minutes.length = minutes'.length →
      boundaryScore minutes = boundaryScore minutes' := by
  constructor
  · unfold boundaryScore
    split <;> simp_all
  · intro minutes' hc hl
    unfold boundaryScore
    rw [hc, hl]

/-- Witness for C6's amended theorem: two samples agreeing on top-of-hour
count and length get the same score, regardless of half-hour minutes. -/
theorem boundary_signal_top_of_hour_witness :
    boundaryScore [3] = boundaryScore [4] :=
  (boundary_signal_top_of_hour [3]).2 [4] (by decide) (by decide)

/-- C7: the verdict written by `generate_verdict` is a pure function of
the total score with breakpoints 100, 60 and 30: at least 100 is
"CONFIRMED MANIPULATION", at least 60 is "HIGH SUSPICION", at least 30 is
"MEDIUM SUSPICION", anything lower is "LOW SUSPICION", and equal scores
always receive the same verdict. -/
theorem verdict_pure_function_of_score (s : ℕ) :
    (100 ≤ s → verdictLevel s = "🔴 CONFIRMED MANIPULATION") ∧
    (60 ≤ s → s < 100 → verdictLevel s = "🔴 HIGH SUSPICION") ∧
    (30 ≤ s → s < 60 → verdictLevel s = "🟡 MEDIUM SUSPICION") ∧
    (s < 30 → verdictLevel s = "🟢 LOW SUSPICION") ∧
    ∀ s' : ℕ, s = s' → verdictLevel s = verdictLevel s' := by
  refine ⟨?_, ?_, ?_, ?_, fun s' hs => by rw [hs]⟩ <;>
    intros <;> unfold verdictLevel <;> (repeat' split) <;> first | rfl | omega

/-- Witness for C7 at the concrete scores 120 and 70. -/
theorem verdict_pure_function_of_score_witness :
    verdictLevel 120 = "🔴 CONFIRMED MANIPULATION" ∧
    verdictLevel 70 = "🔴 HIGH SUSPICION" :=
  ⟨(verdict_pure_function_of_score 120).1 (by norm_num),
    (verdict_pure_function_of_score 70).2.1 (by norm_num) (by norm_num)⟩

/-- C9 counterexample: with 4 intervals the cluster count is
`min(8, 4 // 10) = 0`, which is below 1 (interval_clustering.py applies
the formula without any minimum). -/
theorem cluster_count_below_one_cex :
    maxClusters 4 = 0 ∧ maxClusters 4 < 1 := by
  constructor <;> decide

/-- C9 amended: the cluster count is `K = min(8, len // 10)`; it is at
least 1 whenever the series has at least 10 intervals — in particular
under final.py's guard of at least 20 stargazers, which yields at least 19
intervals — but for fewer than 10 intervals the formula yields 0. -/
theorem cluster_count_policy (n : ℕ) :
    maxClusters n = min 8 (n / 10) ∧
    (10 ≤ n → 1 ≤ maxClusters n) ∧
    ∀ s : ℕ, 20 ≤ s → 1 ≤ maxClusters (s - 1) := by
  refine ⟨rfl, fun h => ?_, fun s hs => ?_⟩ <;> unfold maxClusters <;> omega

/-- Witness for C9's amended theorem at 19 intervals (20 stargazers). -/
theorem cluster_count_policy_witness : 1 ≤ maxClusters 19 :=
  (cluster_count_policy 19).2.1 (by norm_num)

/-- C10: the JSON status and the markdown verdict are each a function of
the total score alone but use different breakpoints, so every total in
[60, 80) gets JSON status "MEDIUM SUSPICION" with markdown verdict
"HIGH SUSPICION", and every total in [30, 40) gets JSON status
"LOW SUSPICION" with markdown verdict "MEDIUM SUSPICION". -/
theorem status_verdict_breakpoints_disagree (s : ℕ) :
    (60 ≤ s → s < 80 →
      reportStatus s = "🟡 MEDIUM SUSPICION" ∧
      verdictLevel s = "🔴 HIGH SUSPICION") ∧
    (30 ≤ s → s < 40 →
      reportStatus s = "🟢 LOW SUSPICION" ∧
      verdictLevel s = "🟡 MEDIUM SUSPICION") ∧
    ∀ s' : ℕ, s = s' →
      reportStatus s = reportStatus s' ∧ verdictLevel s = verdictLevel s' := by
  refine ⟨fun h1 h2 => ⟨?_, ?_⟩, fun h1 h2 => ⟨?_, ?_⟩,
    fun s' hs => by rw [hs]; exact ⟨rfl, rfl⟩⟩
  · unfold reportStatus; (repeat' split) <;> first | rfl | omega
  · unfold verdictLevel; (repeat' split) <;> first | rfl | omega
  · unfold reportStatus; (repeat' split) <;> first | rfl | omega
  · unfold verdictLevel; (repeat' split) <;> first | rfl | omega

/-- Witness for C10 at the concrete scores 70 and 35. -/
theorem status_verdict_breakpoints_disagree_witness :
    (reportStatus 70 = "🟡 MEDIUM SUSPICION" ∧
      verdictLevel 70 = "🔴 HIGH SUSPICION") ∧
    (reportStatus 35 = "🟢 LOW SUSPICION" ∧
      verdictLevel 35 = "🟡 MEDIUM SUSPICION") :=
  ⟨(status_verdict_breakpoints_disagree 70).1 (by norm_num) (by norm_num),
    (status_verdict_breakpoints_disagree 35).2.1 (by norm_num) (by norm_num)⟩

/-- C8: the outlier detector flags exactly those indices whose value has
absolute standardized deviation (value minus mean, divided by the
population standard deviation) exceeding 2, and on a constant sequence,
where the population std is 0, it flags nothing — the division by the zero
std (numpy's nan z-scores) never produces an outlier. -/
theorem outlier_detector_spec (xs : List ℚ) :
    (∀ i : ℕ, i ∈ outlierIndices xs ↔
      i < xs.length ∧ popVariance xs ≠ 0 ∧
        2 < |((xs.getD i 0 - listMean xs : ℚ) : ℝ)| / popStd xs) ∧
    ∀ (n : ℕ) (c : ℚ), outlierIndices (List.replicate n c) = [] := by
  constructor
  · intro i
    rw [mem_outlierIndices]
    unfold popStd
    constructor
    · rintro ⟨h1, h2, h3⟩
      exact ⟨h1, h2, (zscore_iff _ _ (popVariance_nonneg xs) h2).mp h3⟩
    · rintro ⟨h1, h2, h3⟩
      exact ⟨h1, h2, (zscore_iff _ _ (popVariance_nonneg xs) h2).mpr h3⟩
  · intro n c
    exact outlierIndices_replicate n c

end FakeStar
